import Mathlib

/-!
Verification of the RouteOptimizer stop-list / route-optimization core.

This file is a shallow embedding of the non-UI logic of the app screen in
`src/unnamed/part_001` (the `Index` component): the stop list and its
mutators (`appendStop`, `removeStop`, `resetOptimizedRoute`), the
optimization flow (`optimizeRoute`), response reconciliation
(`reorderStopsByWaypointIndex`), the derived display strings
(`durationText`, `distanceText`), and the geocoding search guard.

Modelling conventions:
* Finite JS numbers are modelled as rationals (`ℚ`); a JS number that may be
  `undefined`/`NaN`/`±Infinity` where the code checks `Number.isFinite` is
  modelled as `Option ℚ` with `none` for every non-finite value.
* JS `Array.prototype.sort` is stable (ECMA-262) and is modelled by
  `List.mergeSort`, which is stable in the same sense.
* Asynchronous `fetch` is modelled as an explicit oracle function from the
  request's coordinate list to a `FetchOutcome`; React state updates are
  modelled as field updates on an explicit state record.
-/

namespace RouteOptimizer

/-- A stop of the route: `interface Stop {id, title, coordinate}` in
`src/unnamed/part_001`.  `coordinate` is a `[longitude, latitude]` pair. -/
structure Stop where
  id : String
  title : String
  coordinate : ℚ × ℚ
deriving DecidableEq

instance : Inhabited Stop := ⟨⟨"", "", (0, 0)⟩⟩

/-- One entry of the response's `waypoints` array
(`interface OptimizedWaypoint {waypoint_index : number}`).  `none` models a
missing or non-finite `waypoint_index`, so the code's
`Number.isFinite(entry.waypointIndex)` becomes `isSome`. -/
structure OptimizedWaypoint where
  waypoint_index : Option ℚ
deriving DecidableEq

/-- `interface OptimizedTrip {distance?, duration?, geometry?: {coordinates}}`.
`geometry` is modelled by its `coordinates` list. -/
structure OptimizedTrip where
  distance : Option ℚ
  duration : Option ℚ
  geometry : Option (List (ℚ × ℚ))
deriving DecidableEq

/-- `interface OptimizedTripResponse {code?, message?, trips?, waypoints?}`. -/
structure OptimizedTripResponse where
  code : Option String
  message : Option String
  trips : Option (List OptimizedTrip)
  waypoints : Option (List OptimizedWaypoint)
deriving DecidableEq

/-- The waypoint index the response assigns to the snapshot stop at original
index `i`: the code reads `waypoints[originalIndex + waypointOffset]?.waypoint_index`
(an out-of-range access yields `undefined`, hence `none`). -/
def wpKey (wps : List OptimizedWaypoint) (off i : Nat) : Option ℚ :=
  (wps[i + off]?).bind OptimizedWaypoint.waypoint_index

/-- The `indexedStops` intermediate of `reorderStopsByWaypointIndex`
(lines 203-206): each stop, in original order, paired with the waypoint index
read at its original index plus the offset.  The JS
`currentStops.map((stop, originalIndex) => ...)` is rendered as a map over
`List.range currentStops.length`, which produces the same list. -/
def indexedStopsFor (currentStops : List Stop) (wps : List OptimizedWaypoint)
    (waypointOffset : Nat) : List (Option ℚ × Stop) :=
  (List.range currentStops.length).map
    (fun i => (wpKey wps waypointOffset i, currentStops.getD i default))

/-- `reorderStopsByWaypointIndex` (`src/unnamed/part_001` lines 194-215).

* If `waypoints` is absent or shorter than `currentStops.length + waypointOffset`,
  return `null`.
* Build `indexedStops`: each stop paired with
  `waypoints[originalIndex + waypointOffset]?.waypoint_index`
  (the JS `currentStops.map((stop, originalIndex) => ...)` is rendered as a map
  over `List.range currentStops.length`, which produces the same list).
* If some entry's index is not a finite number, return `null`.  (The code's
  companion check `!entry.stop` compares an array element of a `Stop[]` against
  falsiness; list elements here are always present, so it never fires.)
* Otherwise sort by `waypointIndex` with the stable JS sort
  (comparator `l.waypointIndex - r.waypointIndex`, i.e. ascending keys)
  and return the stops. -/
def reorderStopsByWaypointIndex (currentStops : List Stop)
    (waypoints : Option (List OptimizedWaypoint)) (waypointOffset : Nat) :
    Option (List Stop) :=
  match waypoints with
  | none => none
  | some wps =>
    if wps.length < currentStops.length + waypointOffset then
      none
    else if (indexedStopsFor currentStops wps waypointOffset).any
        (fun entry => entry.1.isNone) then
      none
    else
      some (((indexedStopsFor currentStops wps waypointOffset).mergeSort
        (fun l r => decide (l.1.getD 0 ≤ r.1.getD 0))).map (fun e => e.2))

/-- `buildMapboxError` (`src/unnamed/part_001` lines 217-229), without the
whitespace trimming applied to `details` (modelled as plain concatenation of the
already-trimmed detail text). -/
def buildMapboxError (service : String) (status : Nat) (details : String) : String :=
  if status = 403 then
    service ++ " returned 403. Check token scopes/URL restrictions and account access. " ++ details
  else if status = 401 then
    service ++ " returned 401. Check that your Mapbox token is valid and has required permissions. " ++ details
  else
    service ++ " failed (" ++ toString status ++ "). " ++ details

/-- `durationText` (`src/unnamed/part_001` lines 618-631).  JS
`Math.round(x)` is `⌊x + 1/2⌋`, which is Mathlib's `round`; `totalMinutes` is
an integer `≥ 1`, so `Math.floor(totalMinutes / 60)` and `totalMinutes % 60`
are integer division and remainder. -/
def durationText (routeDurationSeconds : Option ℚ) : String :=
  match routeDurationSeconds with
  | none => "--"
  | some s =>
    let totalMinutes : ℤ := max 1 (round (s / 60))
    if totalMinutes < 60 then
      toString totalMinutes ++ " min"
    else
      let hours := totalMinutes / 60
      let remainingMinutes := totalMinutes % 60
      if remainingMinutes = 0 then
        toString hours ++ " hr"
      else
        toString hours ++ " hr " ++ toString remainingMinutes ++ " min"

/-- JS `Number.prototype.toFixed(1)` on a finite value (ECMA-262): strip the
sign, pick the integer `n` minimising `|n / 10 - x|` (ties go to the larger
`n`, i.e. `n = round (x * 10)` on the non-negative magnitude), and print
`n` with one decimal digit. -/
def toFixed1 (x : ℚ) : String :=
  let sign := if x < 0 then "-" else ""
  let y := if x < 0 then -x else x
  let n : ℤ := round (y * 10)
  sign ++ toString (n / 10) ++ "." ++ toString (n % 10)

/-- `distanceText` (`src/unnamed/part_001` lines 632-634):
`(routeDistanceMeters / 1000).toFixed(1)`. -/
def distanceText (routeDistanceMeters : Option ℚ) : String :=
  match routeDistanceMeters with
  | none => "--"
  | some d => toFixed1 (d / 1000)

/-- The React state that the stop-list and optimization logic reads and
writes: the `useState` hooks of the `Index` component that participate in
`optimizeRoute`, `appendStop` and `removeStop`. -/
structure OptimizeState where
  stops : List Stop
  includeCurrentLocationInRoute : Bool
  userCoordinate : Option (ℚ × ℚ)
  accessToken : String
  routeCoordinates : List (ℚ × ℚ)
  routeDistanceMeters : Option ℚ
  routeDurationSeconds : Option ℚ
  optimizeError : Option String
deriving DecidableEq

/-- `resetOptimizedRoute` (`src/unnamed/part_001` lines 264-268): clears the
route polyline, distance and duration. -/
def resetOptimizedRoute (s : OptimizeState) : OptimizeState :=
  { s with routeCoordinates := [], routeDistanceMeters := none,
           routeDurationSeconds := none }

/-- `appendStop` (`src/unnamed/part_001` lines 320-324): reset the optimized
route, clear the optimize error, and append the stop. -/
def appendStop (s : OptimizeState) (stop : Stop) : OptimizeState :=
  let cleared := resetOptimizedRoute s
  { cleared with optimizeError := none, stops := s.stops ++ [stop] }

/-- `removeStop` (`src/unnamed/part_001` lines 466-470): reset the optimized
route, clear the optimize error, and drop every stop with the given id. -/
def removeStop (s : OptimizeState) (stopId : String) : OptimizeState :=
  let cleared := resetOptimizedRoute s
  { cleared with optimizeError := none,
                 stops := s.stops.filter (fun stop => stop.id != stopId) }

/-- `shouldIncludeUserCoordinate` in `optimizeRoute` (line 498):
`includeCurrentLocationInRoute && Boolean(userCoordinate)`. -/
def shouldIncludeUserCoordinate (s : OptimizeState) : Bool :=
  s.includeCurrentLocationInRoute && s.userCoordinate.isSome

/-- `coordinatesForOptimization` in `optimizeRoute` (lines 499-501): the user
coordinate is prepended exactly when it should (and can) be included. -/
def coordinatesForOptimization (s : OptimizeState) : List (ℚ × ℚ) :=
  match s.userCoordinate with
  | some u =>
    if s.includeCurrentLocationInRoute then u :: s.stops.map Stop.coordinate
    else s.stops.map Stop.coordinate
  | none => s.stops.map Stop.coordinate

/-- `waypointOffset` in `optimizeRoute` (line 502). -/
def waypointOffsetOf (s : OptimizeState) : Nat :=
  if shouldIncludeUserCoordinate s then 1 else 0

/-- Outcome of the single `fetch` of the optimization endpoint performed by
`optimizeRoute`: a transport failure whose `Error` carries `message`, a
non-2xx HTTP response (`!response.ok`), or a parsed JSON body. -/
inductive FetchOutcome where
  | failure (message : String)
  | httpError (status : Nat) (details : String)
  | success (data : OptimizedTripResponse)
deriving DecidableEq

/-- Result of one `optimizeRoute` invocation: the final state, plus the
coordinate list of the dispatched request (`none` when the call was rejected
by a precondition and no network request was issued).  The code performs at
most this one request per invocation — there is no retry. -/
structure OptimizeRun where
  state : OptimizeState
  request : Option (List (ℚ × ℚ))
deriving DecidableEq

def insufficientStopsMessage : String := "Add at least two stops before optimizing."

def locationUnavailableMessage : String := "Current location is unavailable right now."

def tooManyStopsMessage (maxStops : Nat) : String :=
  "Mapbox Optimization supports up to " ++ toString maxStops ++ " stops with current settings."

def missingKeyMessage : String := "Missing EXPO_PUBLIC_MAP_KEY. Restart Expo after updating .env."

def noGeometryMessage : String := "Optimization returned no route geometry."

/-- `optimizeRoute` (`src/unnamed/part_001` lines 472-559).  The async
callback is modelled as a function of the state and a fetch oracle:

* the four precondition checks in source order, each setting its message and
  returning without a network request;
* on dispatch, `setOptimizeError(null)` runs before the `try`;
* every `throw` lands in the `catch`, which calls `resetOptimizedRoute()` and
  stores the error message;
* on success, geometry/distance/duration are set from `trips[0]`, and the
  stop list is replaced only if `reorderStopsByWaypointIndex` succeeds.

`data.code && data.code !== 'Ok'` is JS truthiness: an absent or empty
`code` does not reject. -/
def optimizeRoute (s : OptimizeState) (fetch : List (ℚ × ℚ) → FetchOutcome) :
    OptimizeRun :=
  if s.stops.length < 2 then
    ⟨{ s with optimizeError := some insufficientStopsMessage }, none⟩
  else if s.includeCurrentLocationInRoute && s.userCoordinate.isNone then
    ⟨{ s with optimizeError := some locationUnavailableMessage }, none⟩
  else
    let maxStops : Nat := if s.includeCurrentLocationInRoute then 11 else 12
    if s.stops.length > maxStops then
      ⟨{ s with optimizeError := some (tooManyStopsMessage maxStops) }, none⟩
    else if s.accessToken = "" then
      ⟨{ s with optimizeError := some missingKeyMessage }, none⟩
    else
      let s0 := { s with optimizeError := none }
      let req := coordinatesForOptimization s
      let failWith := fun (message : String) =>
        (⟨{ resetOptimizedRoute s0 with optimizeError := some message }, some req⟩ :
          OptimizeRun)
      match fetch req with
      | .failure message => failWith message
      | .httpError status details =>
        failWith (buildMapboxError "Optimization" status details)
      | .success data =>
        let codeRejected : Bool :=
          match data.code with
          | some c => c != "" && c != "Ok"
          | none => false
        if codeRejected then
          failWith (data.message.getD "Optimization request failed.")
        else
          match data.trips.bind List.head? with
          | none => failWith noGeometryMessage
          | some bestTrip =>
            match bestTrip.geometry with
            | none => failWith noGeometryMessage
            | some geometryCoordinates =>
              if geometryCoordinates.length < 2 then
                failWith noGeometryMessage
              else
                let s1 := { s0 with
                  routeCoordinates := geometryCoordinates,
                  routeDistanceMeters := bestTrip.distance,
                  routeDurationSeconds := bestTrip.duration }
                let s2 :=
                  match reorderStopsByWaypointIndex s.stops data.waypoints
                      (waypointOffsetOf s) with
                  | some reorderedStops => { s1 with stops := reorderedStops }
                  | none => s1
                ⟨s2, some req⟩

/-- One geocoding search candidate, from `src/types/GeocodingFeature.ts`
(the `properties` sub-object is flattened into the `name` and `full_address`
fields; `geometry` into its `coordinates`). -/
structure GeocodingFeature where
  id : String
  coordinates : ℚ × ℚ
  text : Option String
  place_name : Option String
  place_formatted : Option String
  name : Option String
  full_address : Option String
deriving DecidableEq

/-- JS `String.prototype.trim()`: remove leading and trailing whitespace. -/
def jsTrim (q : String) : String :=
  ⟨((q.data.dropWhile Char.isWhitespace).reverse.dropWhile Char.isWhitespace).reverse⟩

/-- The number of non-whitespace characters of a string (used to state the
spec's "minimum 3 non-whitespace characters" rule). -/
def nonWhitespaceCount (q : String) : Nat :=
  (q.data.filter (fun c => !c.isWhitespace)).length

/-- Result of one run of the search `useEffect` body for a new query value:
the immediately visible search state and, in `request`, the trimmed query of
the (debounced) geocoding call it schedules — `none` when no network call is
issued. -/
structure SearchStep where
  searchResults : List GeocodingFeature
  isSearching : Bool
  searchError : Option String
  request : Option String
deriving DecidableEq

/-- The search `useEffect` (`src/unnamed/part_001` lines 395-445, identical in
`src/app/(tabs)/index.tsx` lines 138-160): if `searchQuery.trim().length < 3`,
clear results and error and return without scheduling a request; if the token
is missing, clear results, set the configuration error and return; otherwise
schedule the debounced fetch for the trimmed query (previous results stay
visible until it completes, and `setIsSearching(true)` runs when it fires). -/
def searchStep (previousResults : List GeocodingFeature)
    (searchQuery accessToken : String) : SearchStep :=
  if (jsTrim searchQuery).length < 3 then
    ⟨[], false, none, none⟩
  else if accessToken = "" then
    ⟨[], false, some missingKeyMessage, none⟩
  else
    ⟨previousResults, true, none, some (jsTrim searchQuery)⟩

/-- Lexicographic comparison of stop positions by (waypoint key, original
index): `i` comes before `j` when its key is strictly smaller, or the keys are
equal and `i` was first.  Sorting `List.range n` by this total order yields
the unique stable arrangement "ascending by `waypoint_index`, ties in original
relative order". -/
def keyLex (k : Nat → ℚ) (i j : Nat) : Bool :=
  if k i ≤ k j then (if k j ≤ k i then decide (i ≤ j) else true) else false

/-- The permutation of original indices `0, ..., n-1` sorted ascending by key
with ties broken by the original index. -/
def lexSortedIndices (k : Nat → ℚ) (n : Nat) : List Nat :=
  (List.range n).mergeSort (keyLex k)

/-- The finite waypoint index of the stop at original index `i` (defined when
`wpKey` is `some`; the `0` default is never used under that hypothesis). -/
def wpKeyD (wps : List OptimizedWaypoint) (off i : Nat) : ℚ :=
  (wpKey wps off i).getD 0

theorem keyLex_iff (k : Nat → ℚ) (i j : Nat) :
    keyLex k i j = true ↔ (k i < k j ∨ (k i = k j ∧ i ≤ j)) := by
  unfold keyLex
  rcases lt_trichotomy (k i) (k j) with hlt | heq | hgt
  · rw [if_pos hlt.le, if_neg (not_le_of_lt hlt)]
    simp [hlt]
  · rw [if_pos heq.le, if_pos heq.ge]
    simp [heq, lt_irrefl]
  · rw [if_neg (not_le_of_lt hgt)]
    simp only [Bool.false_eq_true, false_iff]
    rintro (h | ⟨h, -⟩)
    · exact absurd h (not_lt_of_gt hgt)
    · exact absurd h (ne_of_gt hgt)

theorem keyLex_trans (k : Nat → ℚ) (a b c : Nat) :
    keyLex k a b → keyLex k b c → keyLex k a c := by
  simp only [keyLex_iff]
  rintro (hab | ⟨hab, hab'⟩) (hbc | ⟨hbc, hbc'⟩)
  · exact Or.inl (hab.trans hbc)
  · exact Or.inl (hbc ▸ hab)
  · exact Or.inl (hab ▸ hbc)
  · exact Or.inr ⟨hab.trans hbc, hab'.trans hbc'⟩

theorem keyLex_total (k : Nat → ℚ) (a b : Nat) :
    keyLex k a b || keyLex k b a := by
  rw [Bool.or_eq_true, keyLex_iff, keyLex_iff]
  rcases lt_trichotomy (k a) (k b) with hlt | heq | hgt
  · exact Or.inl (Or.inl hlt)
  · rcases Nat.le_total a b with hn | hn
    · exact Or.inl (Or.inr ⟨heq, hn⟩)
    · exact Or.inr (Or.inr ⟨heq.symm, hn⟩)
  · exact Or.inr (Or.inl hgt)

theorem range_enum_eq_diag (n : Nat) :
    (List.range n).enum = (List.range n).map (fun i => (i, i)) := by
  rw [List.enum_eq_zip_range]
  simp only [List.length_range]
  simpa using List.zip_map' id id (List.range n)

theorem keyLex_eq_enumLE (k : Nat → ℚ) :
    ∀ a ∈ List.range n, ∀ b ∈ List.range n,
      keyLex k a b =
        List.enumLE (fun i j => decide (k i ≤ k j)) (a, a) (b, b) := by
  intro a _ b _
  simp only [List.enumLE, keyLex]
  by_cases h1 : k a ≤ k b <;> by_cases h2 : k b ≤ k a <;> simp [h1, h2]

/-- Stability of the JS sort: sorting the index list `0, ..., n-1` with the
stable merge sort by key alone agrees with sorting it by the total
lexicographic order (key, then original index). -/
theorem mergeSort_range_key_stable (k : Nat → ℚ) (n : Nat) :
    (List.range n).mergeSort (fun i j => decide (k i ≤ k j)) =
      lexSortedIndices k n := by
  unfold lexSortedIndices
  calc (List.range n).mergeSort (fun i j => decide (k i ≤ k j))
      = ((List.range n).enum.mergeSort
          (List.enumLE (fun i j => decide (k i ≤ k j)))).map (fun p => p.2) :=
        (List.mergeSort_enum).symm
    _ = (((List.range n).map (fun i => (i, i))).mergeSort
          (List.enumLE (fun i j => decide (k i ≤ k j)))).map (fun p => p.2) := by
        rw [range_enum_eq_diag]
    _ = (((List.range n).mergeSort (keyLex k)).map
          (fun i => (i, i))).map (fun p => p.2) := by
        rw [List.map_mergeSort (keyLex_eq_enumLE k)]
    _ = (List.range n).mergeSort (keyLex k) := by
        rw [List.map_map]
        exact List.map_id _

theorem map_getD_range (l : List Stop) :
    (List.range l.length).map (fun i => l.getD i default) = l := by
  induction l with
  | nil => simp
  | cons a t ih =>
    simp only [List.length_cons, List.range_succ_eq_map, List.map_cons,
      List.map_map, List.getD_cons_zero]
    refine congrArg (a :: ·) ?_
    calc (List.range t.length).map ((fun i => (a :: t).getD i default) ∘ Nat.succ)
        = (List.range t.length).map (fun i => t.getD i default) := by
          refine List.map_congr_left fun i _ => ?_
          simp [Function.comp]
      _ = t := ih

theorem indexedStops_any_isNone_eq_false {stops : List Stop}
    {wps : List OptimizedWaypoint} {off : Nat}
    (hfin : ∀ i, i < stops.length → (wpKey wps off i).isSome) :
    (indexedStopsFor stops wps off).any (fun entry => entry.1.isNone) = false := by
  rw [List.any_eq_false]
  intro x hx
  simp only [indexedStopsFor, List.mem_map, List.mem_range] at hx
  obtain ⟨i, hi, rfl⟩ := hx
  have h := hfin i hi
  simp only [Option.isSome] at h
  cases hcase : wpKey wps off i with
  | none => rw [hcase] at h; simp at h
  | some q => simp [hcase]

/-- On a well-formed response, `reorderStopsByWaypointIndex` returns exactly
the stops arranged by the unique permutation of original indices that is
sorted lexicographically by (waypoint key, original index): ascending
`waypoint_index`, ties kept in original relative order. -/
theorem reorder_eq_lexSort (stops : List Stop) (wps : List OptimizedWaypoint)
    (off : Nat) (hlen : stops.length + off ≤ wps.length)
    (hfin : ∀ i, i < stops.length → (wpKey wps off i).isSome) :
    reorderStopsByWaypointIndex stops (some wps) off =
      some ((lexSortedIndices (wpKeyD wps off) stops.length).map
        (fun i => stops.getD i default)) := by
  show (if wps.length < stops.length + off then none
    else if (indexedStopsFor stops wps off).any (fun entry => entry.1.isNone) then
      none
    else
      some (((indexedStopsFor stops wps off).mergeSort
        (fun l r => decide (l.1.getD 0 ≤ r.1.getD 0))).map (fun e => e.2))) = _
  rw [if_neg (by omega),
    if_neg (by simp [indexedStops_any_isNone_eq_false hfin])]
  have h1 : ((List.range stops.length).mergeSort
        (fun i j => decide (wpKeyD wps off i ≤ wpKeyD wps off j))).map
        (fun i => (wpKey wps off i, stops.getD i default)) =
      (((List.range stops.length).map
        (fun i => (wpKey wps off i, stops.getD i default))).mergeSort
        (fun l r => decide (l.1.getD 0 ≤ r.1.getD 0))) :=
    List.map_mergeSort (fun _ _ _ _ => rfl)
  simp only [indexedStopsFor]
  rw [← h1, List.map_map, mergeSort_range_key_stable]
  rfl

/-- On a malformed response — `waypoints` absent, shorter than
`stops.length + offset`, or carrying a non-finite `waypoint_index` for some
stop — `reorderStopsByWaypointIndex` returns `null`. -/
theorem reorder_eq_none_of_malformed (stops : List Stop)
    (waypoints : Option (List OptimizedWaypoint)) (off : Nat)
    (h : waypoints = none ∨ ∃ wps, waypoints = some wps ∧
      (wps.length < stops.length + off ∨
       ∃ i, i < stops.length ∧ wpKey wps off i = none)) :
    reorderStopsByWaypointIndex stops waypoints off = none := by
  rcases h with rfl | ⟨wps, rfl, h⟩
  · rfl
  · show (if wps.length < stops.length + off then none
      else if (indexedStopsFor stops wps off).any (fun entry => entry.1.isNone) then
        none
      else
        some (((indexedStopsFor stops wps off).mergeSort
          (fun l r => decide (l.1.getD 0 ≤ r.1.getD 0))).map (fun e => e.2))) = none
    by_cases hlen : wps.length < stops.length + off
    · rw [if_pos hlen]
    · rcases h with h | ⟨i, hi, hkey⟩
      · exact absurd h hlen
      · rw [if_neg hlen, if_pos ?hit]
        case hit =>
          rw [List.any_eq_true]
          refine ⟨(wpKey wps off i, stops.getD i default), ?_, ?_⟩
          · exact List.mem_map.mpr ⟨i, List.mem_range.mpr hi, rfl⟩
          · simp [hkey]

/-- C1: for a stop list with at least 2 stops and a response whose
`waypoints` has length at least `n + waypointOffset` with a finite
`waypoint_index` at every position `i + waypointOffset`, the reconciliation
produces exactly the same stops arranged by the unique index permutation that
is sorted ascending by `waypoint_index` with ties kept in original relative
order (stable sort): the output equals the stops read off along
`lexSortedIndices`, it is a permutation of the input, the index permutation
is lexicographically sorted (strictly smaller key first, ties by original
position), and the keys along the output are non-decreasing. -/
theorem reorder_sorts_stops_stably (stops : List Stop)
    (wps : List OptimizedWaypoint) (off : Nat)
    (hstops : 2 ≤ stops.length)
    (hlen : stops.length + off ≤ wps.length)
    (hfin : ∀ i, i < stops.length → (wpKey wps off i).isSome) :
    reorderStopsByWaypointIndex stops (some wps) off =
      some ((lexSortedIndices (wpKeyD wps off) stops.length).map
        (fun i => stops.getD i default)) ∧
    ((lexSortedIndices (wpKeyD wps off) stops.length).map
      (fun i => stops.getD i default)).Perm stops ∧
    (lexSortedIndices (wpKeyD wps off) stops.length).Pairwise
      (fun i j => wpKeyD wps off i < wpKeyD wps off j ∨
        (wpKeyD wps off i = wpKeyD wps off j ∧ i ≤ j)) ∧
    ((lexSortedIndices (wpKeyD wps off) stops.length).map
      (wpKeyD wps off)).Pairwise (· ≤ ·) := by
  have hsorted := List.sorted_mergeSort (keyLex_trans (wpKeyD wps off))
    (keyLex_total (wpKeyD wps off)) (List.range stops.length)
  refine ⟨reorder_eq_lexSort stops wps off hlen hfin, ?_, ?_, ?_⟩
  · have hp : (lexSortedIndices (wpKeyD wps off) stops.length).Perm
        (List.range stops.length) := List.mergeSort_perm _ _
    have hmp := hp.map (fun i => stops.getD i default)
    rwa [map_getD_range] at hmp
  · exact hsorted.imp (fun h => (keyLex_iff _ _ _).mp h)
  · have h3 : (lexSortedIndices (wpKeyD wps off) stops.length).Pairwise
        (fun i j => wpKeyD wps off i ≤ wpKeyD wps off j) := by
      refine hsorted.imp (fun h => ?_)
      rcases (keyLex_iff _ _ _).mp h with h | ⟨h, -⟩
      · exact le_of_lt h
      · exact le_of_eq h
    exact List.Pairwise.map _ (fun a b hab => hab) h3

def stopA : Stop := ⟨"a", "Stop A", (10, 10)⟩

def stopB : Stop := ⟨"b", "Stop B", (20, 20)⟩

def stopC : Stop := ⟨"c", "Stop C", (30, 30)⟩

theorem reorder_sorts_stops_stably_witness :
    (2 ≤ [stopA, stopB].length ∧
     [stopA, stopB].length + 0 ≤
       [(⟨some 1⟩ : OptimizedWaypoint), ⟨some 0⟩].length ∧
     (∀ i, i < [stopA, stopB].length →
       (wpKey [(⟨some 1⟩ : OptimizedWaypoint), ⟨some 0⟩] 0 i).isSome)) ∧
    (reorderStopsByWaypointIndex [stopA, stopB]
        (some [(⟨some 1⟩ : OptimizedWaypoint), ⟨some 0⟩]) 0 =
      some ((lexSortedIndices
        (wpKeyD [(⟨some 1⟩ : OptimizedWaypoint), ⟨some 0⟩] 0)
        [stopA, stopB].length).map (fun i => [stopA, stopB].getD i default)) ∧
     ((lexSortedIndices (wpKeyD [(⟨some 1⟩ : OptimizedWaypoint), ⟨some 0⟩] 0)
        [stopA, stopB].length).map
        (fun i => [stopA, stopB].getD i default)).Perm [stopA, stopB] ∧
     (lexSortedIndices (wpKeyD [(⟨some 1⟩ : OptimizedWaypoint), ⟨some 0⟩] 0)
        [stopA, stopB].length).Pairwise
       (fun i j =>
         wpKeyD [(⟨some 1⟩ : OptimizedWaypoint), ⟨some 0⟩] 0 i <
           wpKeyD [(⟨some 1⟩ : OptimizedWaypoint), ⟨some 0⟩] 0 j ∨
         (wpKeyD [(⟨some 1⟩ : OptimizedWaypoint), ⟨some 0⟩] 0 i =
           wpKeyD [(⟨some 1⟩ : OptimizedWaypoint), ⟨some 0⟩] 0 j ∧ i ≤ j)) ∧
     ((lexSortedIndices (wpKeyD [(⟨some 1⟩ : OptimizedWaypoint), ⟨some 0⟩] 0)
        [stopA, stopB].length).map
        (wpKeyD [(⟨some 1⟩ : OptimizedWaypoint), ⟨some 0⟩] 0)).Pairwise
       (· ≤ ·)) :=
  ⟨⟨by decide, by decide, by decide⟩,
   reorder_sorts_stops_stably [stopA, stopB] [⟨some 1⟩, ⟨some 0⟩] 0
     (by decide) (by decide) (by decide)⟩

unseal List.merge List.mergeSort in
example : reorderStopsByWaypointIndex [stopA, stopB]
    (some [⟨some 1⟩, ⟨some 0⟩]) 0 = some [stopB, stopA] := by decide

unseal List.merge List.mergeSort in
example : reorderStopsByWaypointIndex [stopA, stopB, stopC]
    (some [⟨some 1⟩, ⟨some 1⟩, ⟨some 0⟩]) 0 =
      some [stopC, stopA, stopB] := by decide

unseal List.merge List.mergeSort in
example : reorderStopsByWaypointIndex [stopA, stopB]
    (some [⟨some 5⟩, ⟨some 1⟩, ⟨some 0⟩]) 1 = some [stopB, stopA] := by decide

example : reorderStopsByWaypointIndex [stopA, stopB] (some [⟨some 1⟩]) 0 =
    none := by decide

example : reorderStopsByWaypointIndex [stopA, stopB]
    (some [⟨some 1⟩, ⟨none⟩]) 0 = none := by decide

/-- C5: `appendStop` and `removeStop` clear a previously set RouteArtifact as
part of the mutation: afterwards the route polyline, `routeDistanceMeters`
and `routeDurationSeconds` are all absent simultaneously (and the stop list
is updated as the source prescribes). -/
theorem mutation_clears_route_artifact (s : OptimizeState) (stop : Stop)
    (stopId : String) :
    ((appendStop s stop).routeCoordinates = [] ∧
     (appendStop s stop).routeDistanceMeters = none ∧
     (appendStop s stop).routeDurationSeconds = none ∧
     (appendStop s stop).stops = s.stops ++ [stop]) ∧
    ((removeStop s stopId).routeCoordinates = [] ∧
     (removeStop s stopId).routeDistanceMeters = none ∧
     (removeStop s stopId).routeDurationSeconds = none ∧
     (removeStop s stopId).stops =
       s.stops.filter (fun stop => stop.id != stopId)) :=
  ⟨⟨rfl, rfl, rfl, rfl⟩, ⟨rfl, rfl, rfl, rfl⟩⟩

/-- C4: `optimizeRoute` checks its preconditions in source order before any
network request — (1) fewer than 2 stops, (2) current location requested but
unavailable, (3) more stops than the service maximum (12 plain, 11 when the
current location is prepended), (4) missing access token — each setting its
own distinct message, leaving the rest of the state untouched and
dispatching no request; in particular 13 stops without current location are
rejected locally with the too-many-stops message. -/
theorem optimize_precondition_checks (s : OptimizeState)
    (fetch : List (ℚ × ℚ) → FetchOutcome) :
    (s.stops.length < 2 →
      optimizeRoute s fetch =
        ⟨{ s with optimizeError := some insufficientStopsMessage }, none⟩) ∧
    (2 ≤ s.stops.length → s.includeCurrentLocationInRoute = true →
      s.userCoordinate = none →
      optimizeRoute s fetch =
        ⟨{ s with optimizeError := some locationUnavailableMessage }, none⟩) ∧
    (2 ≤ s.stops.length →
      (s.includeCurrentLocationInRoute = true → s.userCoordinate.isSome) →
      (if s.includeCurrentLocationInRoute then 11 else 12) < s.stops.length →
      optimizeRoute s fetch =
        ⟨{ s with optimizeError := some (tooManyStopsMessage
            (if s.includeCurrentLocationInRoute then 11 else 12)) }, none⟩) ∧
    (2 ≤ s.stops.length →
      (s.includeCurrentLocationInRoute = true → s.userCoordinate.isSome) →
      s.stops.length ≤ (if s.includeCurrentLocationInRoute then 11 else 12) →
      s.accessToken = "" →
      optimizeRoute s fetch =
        ⟨{ s with optimizeError := some missingKeyMessage }, none⟩) ∧
    (s.stops.length = 13 → s.includeCurrentLocationInRoute = false →
      optimizeRoute s fetch =
        ⟨{ s with optimizeError := some (tooManyStopsMessage 12) }, none⟩) ∧
    (insufficientStopsMessage ≠ locationUnavailableMessage ∧
     insufficientStopsMessage ≠ tooManyStopsMessage 11 ∧
     insufficientStopsMessage ≠ tooManyStopsMessage 12 ∧
     insufficientStopsMessage ≠ missingKeyMessage ∧
     locationUnavailableMessage ≠ tooManyStopsMessage 11 ∧
     locationUnavailableMessage ≠ tooManyStopsMessage 12 ∧
     locationUnavailableMessage ≠ missingKeyMessage ∧
     tooManyStopsMessage 11 ≠ missingKeyMessage ∧
     tooManyStopsMessage 12 ≠ missingKeyMessage) := by
  refine ⟨?_, ?_, ?_, ?_, ?_, ?_⟩
  · intro h
    simp [optimizeRoute, h]
  · intro h2 hinc hnone
    have h1 : ¬ s.stops.length < 2 := by omega
    simp [optimizeRoute, h1, hinc, hnone]
  · intro h2 huser hmax
    have h1 : ¬ s.stops.length < 2 := by omega
    have hb : (s.includeCurrentLocationInRoute && s.userCoordinate.isNone) = false := by
      cases hi : s.includeCurrentLocationInRoute
      · simp
      · rcases Option.isSome_iff_exists.mp (huser hi) with ⟨u, hu⟩
        simp [hu]
    simp [optimizeRoute, h1, hb, hmax]
  · intro h2 huser hle htok
    have h1 : ¬ s.stops.length < 2 := by omega
    have hb : (s.includeCurrentLocationInRoute && s.userCoordinate.isNone) = false := by
      cases hi : s.includeCurrentLocationInRoute
      · simp
      · rcases Option.isSome_iff_exists.mp (huser hi) with ⟨u, hu⟩
        simp [hu]
    have h3 : ¬ (if s.includeCurrentLocationInRoute then 11 else 12) <
        s.stops.length := not_lt.mpr hle
    simp [optimizeRoute, h1, hb, h3, htok]
  · intro h13 hinc
    have h1 : ¬ s.stops.length < 2 := by omega
    have h3 : (12 : Nat) < s.stops.length := by omega
    simp [optimizeRoute, h1, hinc, h3]
  · refine ⟨?_, ?_, ?_, ?_, ?_, ?_, ?_, ?_, ?_⟩ <;> decide

def thirteenState : OptimizeState :=
  { stops := List.replicate 13 stopA,
    includeCurrentLocationInRoute := false,
    userCoordinate := none,
    accessToken := "token",
    routeCoordinates := [],
    routeDistanceMeters := none,
    routeDurationSeconds := none,
    optimizeError := none }

theorem optimize_precondition_checks_witness :
    (thirteenState.stops.length = 13 ∧
     thirteenState.includeCurrentLocationInRoute = false) ∧
    optimizeRoute thirteenState (fun _ => FetchOutcome.failure "unused") =
      ⟨{ thirteenState with optimizeError := some (tooManyStopsMessage 12) },
        none⟩ :=
  ⟨⟨rfl, rfl⟩,
   (optimize_precondition_checks thirteenState
     (fun _ => FetchOutcome.failure "unused")).2.2.2.2.1 rfl rfl⟩

/-- When all preconditions pass and the fetched response is accepted
(success code, first trip has geometry with at least 2 points),
`optimizeRoute` sets the route artifact from `trips[0]`, clears the error,
dispatches exactly the constructed coordinate list, and replaces the stop
list only if reconciliation succeeds. -/
theorem optimizeRoute_success_eq (s : OptimizeState)
    (fetch : List (ℚ × ℚ) → FetchOutcome) (data : OptimizedTripResponse)
    (bestTrip : OptimizedTrip) (geom : List (ℚ × ℚ))
    (h2 : 2 ≤ s.stops.length)
    (huser : s.includeCurrentLocationInRoute = true → s.userCoordinate.isSome)
    (hle : s.stops.length ≤ (if s.includeCurrentLocationInRoute then 11 else 12))
    (htok : s.accessToken ≠ "")
    (hfetch : fetch (coordinatesForOptimization s) = .success data)
    (hcode : ∀ c, data.code = some c → c = "" ∨ c = "Ok")
    (htrip : data.trips.bind List.head? = some bestTrip)
    (hgeom : bestTrip.geometry = some geom)
    (hglen : 2 ≤ geom.length) :
    optimizeRoute s fetch =
      ⟨{ s with optimizeError := none,
                routeCoordinates := geom,
                routeDistanceMeters := bestTrip.distance,
                routeDurationSeconds := bestTrip.duration,
                stops := (reorderStopsByWaypointIndex s.stops data.waypoints
                  (waypointOffsetOf s)).getD s.stops },
       some (coordinatesForOptimization s)⟩ := by
  have h1 : ¬ s.stops.length < 2 := by omega
  have hb : (s.includeCurrentLocationInRoute && s.userCoordinate.isNone) = false := by
    cases hi : s.includeCurrentLocationInRoute
    · simp
    · rcases Option.isSome_iff_exists.mp (huser hi) with ⟨u, hu⟩
      simp [hu]
  have h3 : ¬ (if s.includeCurrentLocationInRoute then 11 else 12) <
      s.stops.length := not_lt.mpr hle
  have hcr : (match data.code with
      | some c => c != "" && c != "Ok"
      | none => false) = false := by
    cases hc : data.code with
    | none => rfl
    | some c =>
      rcases hcode c hc with rfl | rfl <;> simp
  have hg2 : ¬ geom.length < 2 := by omega
  simp only [optimizeRoute, h1, hb, h3, htok, hfetch, hcr, htrip, hgeom, hg2,
    if_false, gt_iff_lt, Bool.false_eq_true, if_true, ite_false, ite_true,
    ne_eq, not_false_eq_true]
  cases hr : reorderStopsByWaypointIndex s.stops data.waypoints
      (waypointOffsetOf s) <;>
    simp [hr]

/-- C6: every failing optimization attempt — transport failure, non-2xx HTTP
status, service rejection via a non-success `code` token, or missing/short
trip geometry — ends with the RouteArtifact fully cleared (geometry, distance
and duration all absent, never partially set), an error message surfaced, the
stop list untouched, and exactly the one dispatched request (no automatic
retry: the model performs at most a single fetch per invocation). -/
theorem optimize_failure_clears_artifact (s : OptimizeState)
    (fetch : List (ℚ × ℚ) → FetchOutcome)
    (h2 : 2 ≤ s.stops.length)
    (huser : s.includeCurrentLocationInRoute = true → s.userCoordinate.isSome)
    (hle : s.stops.length ≤ (if s.includeCurrentLocationInRoute then 11 else 12))
    (htok : s.accessToken ≠ "")
    (hfail :
      (∃ msg, fetch (coordinatesForOptimization s) = .failure msg) ∨
      (∃ st details,
        fetch (coordinatesForOptimization s) = .httpError st details) ∨
      (∃ data c, fetch (coordinatesForOptimization s) = .success data ∧
        data.code = some c ∧ c ≠ "" ∧ c ≠ "Ok") ∨
      (∃ data, fetch (coordinatesForOptimization s) = .success data ∧
        (∀ c, data.code = some c → c = "" ∨ c = "Ok") ∧
        ((data.trips.bind List.head?).bind OptimizedTrip.geometry = none ∨
         ∃ geom,
           (data.trips.bind List.head?).bind OptimizedTrip.geometry =
             some geom ∧ geom.length < 2))) :
    (optimizeRoute s fetch).state.routeCoordinates = [] ∧
    (optimizeRoute s fetch).state.routeDistanceMeters = none ∧
    (optimizeRoute s fetch).state.routeDurationSeconds = none ∧
    (optimizeRoute s fetch).state.optimizeError.isSome ∧
    (optimizeRoute s fetch).state.stops = s.stops ∧
    (optimizeRoute s fetch).request = some (coordinatesForOptimization s) := by
  have h1 : ¬ s.stops.length < 2 := by omega
  have hb : (s.includeCurrentLocationInRoute && s.userCoordinate.isNone) = false := by
    cases hi : s.includeCurrentLocationInRoute
    · simp
    · rcases Option.isSome_iff_exists.mp (huser hi) with ⟨u, hu⟩
      simp [hu]
  have h3 : ¬ (if s.includeCurrentLocationInRoute then 11 else 12) <
      s.stops.length := not_lt.mpr hle
  rcases hfail with ⟨msg, hfetch⟩ | ⟨st, details, hfetch⟩ |
      ⟨data, c, hfetch, hc, hc1, hc2⟩ | ⟨data, hfetch, hcode, hgeom⟩
  · simp [optimizeRoute, h1, hb, h3, htok, hfetch, resetOptimizedRoute]
  · simp [optimizeRoute, h1, hb, h3, htok, hfetch, resetOptimizedRoute]
  · have hcr : (match data.code with
        | some c => c != "" && c != "Ok"
        | none => false) = true := by
      rw [hc]
      simp [hc1, hc2]
    simp [optimizeRoute, h1, hb, h3, htok, hfetch, hcr, resetOptimizedRoute]
  · have hcr : (match data.code with
        | some c => c != "" && c != "Ok"
        | none => false) = false := by
      cases hcase : data.code with
      | none => rfl
      | some c => rcases hcode c hcase with rfl | rfl <;> simp
    rcases hgeom with hg | ⟨geom, hg, hglen⟩
    · cases hbt : data.trips.bind List.head? with
      | none =>
        simp [optimizeRoute, h1, hb, h3, htok, hfetch, hcr, hbt,
          resetOptimizedRoute]
      | some bestTrip =>
        rw [hbt] at hg
        simp only [Option.some_bind] at hg
        simp [optimizeRoute, h1, hb, h3, htok, hfetch, hcr, hbt, hg,
          resetOptimizedRoute]
    · cases hbt : data.trips.bind List.head? with
      | none => rw [hbt] at hg; simp at hg
      | some bestTrip =>
        rw [hbt] at hg
        simp only [Option.some_bind] at hg
        simp [optimizeRoute, h1, hb, h3, htok, hfetch, hcr, hbt, hg, hglen,
          resetOptimizedRoute]

/-- A state holding a previously set RouteArtifact, used as concrete input
for failure-path instantiations. -/
def primedState : OptimizeState :=
  { stops := [stopA, stopB],
    includeCurrentLocationInRoute := false,
    userCoordinate := none,
    accessToken := "token",
    routeCoordinates := [(1, 1), (2, 2)],
    routeDistanceMeters := some 5000,
    routeDurationSeconds := some 600,
    optimizeError := none }

theorem optimize_failure_clears_artifact_witness :
    (2 ≤ primedState.stops.length ∧
     (primedState.includeCurrentLocationInRoute = true →
       primedState.userCoordinate.isSome) ∧
     primedState.stops.length ≤
       (if primedState.includeCurrentLocationInRoute then 11 else 12) ∧
     primedState.accessToken ≠ "") ∧
    ((optimizeRoute primedState
        (fun _ => FetchOutcome.failure "network request failed")).state.routeCoordinates = [] ∧
     (optimizeRoute primedState
        (fun _ => FetchOutcome.failure "network request failed")).state.routeDistanceMeters = none ∧
     (optimizeRoute primedState
        (fun _ => FetchOutcome.failure "network request failed")).state.routeDurationSeconds = none ∧
     (optimizeRoute primedState
        (fun _ => FetchOutcome.failure "network request failed")).state.optimizeError.isSome ∧
     (optimizeRoute primedState
        (fun _ => FetchOutcome.failure "network request failed")).state.stops = primedState.stops ∧
     (optimizeRoute primedState
        (fun _ => FetchOutcome.failure "network request failed")).request =
       some (coordinatesForOptimization primedState)) :=
  ⟨⟨by decide, by decide, by decide, by decide⟩,
   optimize_failure_clears_artifact primedState
     (fun _ => FetchOutcome.failure "network request failed")
     (by decide) (by decide) (by decide) (by decide)
     (Or.inl ⟨"network request failed", rfl⟩)⟩

/-- C3: on a successful response whose `waypoints` are missing, too short, or
carry a non-finite `waypoint_index` for some stop, the stop order is left
unchanged while `trips[0]`'s geometry, distance and duration are still
applied and no error is raised (graceful degradation). -/
theorem optimize_malformed_waypoints_graceful (s : OptimizeState)
    (fetch : List (ℚ × ℚ) → FetchOutcome) (data : OptimizedTripResponse)
    (bestTrip : OptimizedTrip) (geom : List (ℚ × ℚ))
    (h2 : 2 ≤ s.stops.length)
    (huser : s.includeCurrentLocationInRoute = true → s.userCoordinate.isSome)
    (hle : s.stops.length ≤ (if s.includeCurrentLocationInRoute then 11 else 12))
    (htok : s.accessToken ≠ "")
    (hfetch : fetch (coordinatesForOptimization s) = .success data)
    (hcode : ∀ c, data.code = some c → c = "" ∨ c = "Ok")
    (htrip : data.trips.bind List.head? = some bestTrip)
    (hgeom : bestTrip.geometry = some geom)
    (hglen : 2 ≤ geom.length)
    (hmal : data.waypoints = none ∨ ∃ wps, data.waypoints = some wps ∧
      (wps.length < s.stops.length + waypointOffsetOf s ∨
       ∃ i, i < s.stops.length ∧ wpKey wps (waypointOffsetOf s) i = none)) :
    (optimizeRoute s fetch).state.stops = s.stops ∧
    (optimizeRoute s fetch).state.routeCoordinates = geom ∧
    (optimizeRoute s fetch).state.routeDistanceMeters = bestTrip.distance ∧
    (optimizeRoute s fetch).state.routeDurationSeconds = bestTrip.duration ∧
    (optimizeRoute s fetch).state.optimizeError = none := by
  have hnone := reorder_eq_none_of_malformed s.stops data.waypoints
    (waypointOffsetOf s) hmal
  rw [optimizeRoute_success_eq s fetch data bestTrip geom h2 huser hle htok
    hfetch hcode htrip hgeom hglen]
  simp [hnone]

/-- A successful response whose `waypoints` array (length 1) is shorter than
the two snapshot stops require. -/
def shortWaypointsResponse : OptimizedTripResponse :=
  { code := some "Ok",
    message := none,
    trips := some [{ distance := some 5000, duration := some 600,
                     geometry := some [(10, 10), (20, 20)] }],
    waypoints := some [⟨some 0⟩] }

theorem optimize_malformed_waypoints_graceful_witness :
    (2 ≤ primedState.stops.length ∧
     primedState.accessToken ≠ "" ∧
     (shortWaypointsResponse.waypoints = some [⟨some 0⟩] ∧
      [(⟨some 0⟩ : OptimizedWaypoint)].length <
        primedState.stops.length + waypointOffsetOf primedState)) ∧
    ((optimizeRoute primedState
        (fun _ => FetchOutcome.success shortWaypointsResponse)).state.stops =
       primedState.stops ∧
     (optimizeRoute primedState
        (fun _ => FetchOutcome.success shortWaypointsResponse)).state.routeCoordinates =
       [(10, 10), (20, 20)] ∧
     (optimizeRoute primedState
        (fun _ => FetchOutcome.success shortWaypointsResponse)).state.routeDistanceMeters =
       some 5000 ∧
     (optimizeRoute primedState
        (fun _ => FetchOutcome.success shortWaypointsResponse)).state.routeDurationSeconds =
       some 600 ∧
     (optimizeRoute primedState
        (fun _ => FetchOutcome.success shortWaypointsResponse)).state.optimizeError =
       none) :=
  ⟨⟨by decide, by decide, rfl, by decide⟩,
   optimize_malformed_waypoints_graceful primedState
     (fun _ => FetchOutcome.success shortWaypointsResponse)
     shortWaypointsResponse
     { distance := some 5000, duration := some 600,
       geometry := some [(10, 10), (20, 20)] }
     [(10, 10), (20, 20)]
     (by decide) (by decide) (by decide) (by decide) rfl
     (fun c hc => Or.inr (Option.some.inj hc).symm)
     rfl rfl (by decide)
     (Or.inr ⟨[⟨some 0⟩], rfl, Or.inl (by decide)⟩)⟩

/-- C10: a successful response whose `trips[0]` has valid geometry but lacks
`distance` (and possibly `duration`) still succeeds: the polyline is set, the
absent summary values are stored as `null` and display as `"--"`, and no
error is raised — a route artifact with geometry but absent summary exists. -/
theorem optimize_partial_summary_allowed (s : OptimizeState)
    (fetch : List (ℚ × ℚ) → FetchOutcome) (data : OptimizedTripResponse)
    (bestTrip : OptimizedTrip) (geom : List (ℚ × ℚ))
    (h2 : 2 ≤ s.stops.length)
    (huser : s.includeCurrentLocationInRoute = true → s.userCoordinate.isSome)
    (hle : s.stops.length ≤ (if s.includeCurrentLocationInRoute then 11 else 12))
    (htok : s.accessToken ≠ "")
    (hfetch : fetch (coordinatesForOptimization s) = .success data)
    (hcode : ∀ c, data.code = some c → c = "" ∨ c = "Ok")
    (htrip : data.trips.bind List.head? = some bestTrip)
    (hgeom : bestTrip.geometry = some geom)
    (hglen : 2 ≤ geom.length)
    (hdist : bestTrip.distance = none) :
    (optimizeRoute s fetch).state.routeCoordinates = geom ∧
    (optimizeRoute s fetch).state.routeDistanceMeters = none ∧
    distanceText (optimizeRoute s fetch).state.routeDistanceMeters = "--" ∧
    (optimizeRoute s fetch).state.routeDurationSeconds = bestTrip.duration ∧
    (bestTrip.duration = none →
      durationText (optimizeRoute s fetch).state.routeDurationSeconds = "--") ∧
    (optimizeRoute s fetch).state.optimizeError = none := by
  rw [optimizeRoute_success_eq s fetch data bestTrip geom h2 huser hle htok
    hfetch hcode htrip hgeom hglen]
  refine ⟨rfl, hdist, ?_, rfl, ?_, rfl⟩
  · simp [hdist, distanceText]
  · intro hdur
    simp [hdur, durationText]

/-- A successful response whose only trip has geometry but neither distance
nor duration. -/
def summarylessResponse : OptimizedTripResponse :=
  { code := some "Ok",
    message := none,
    trips := some [{ distance := none, duration := none,
                     geometry := some [(10, 10), (20, 20)] }],
    waypoints := some [⟨some 0⟩, ⟨some 1⟩] }

theorem optimize_partial_summary_allowed_witness :
    (2 ≤ primedState.stops.length ∧
     primedState.accessToken ≠ "" ∧
     ({ distance := none, duration := none,
        geometry := some [(10, 10), (20, 20)] } : OptimizedTrip).distance =
       none) ∧
    ((optimizeRoute primedState
        (fun _ => FetchOutcome.success summarylessResponse)).state.routeCoordinates =
       [(10, 10), (20, 20)] ∧
     (optimizeRoute primedState
        (fun _ => FetchOutcome.success summarylessResponse)).state.routeDistanceMeters =
       none ∧
     distanceText (optimizeRoute primedState
        (fun _ => FetchOutcome.success summarylessResponse)).state.routeDistanceMeters =
       "--" ∧
     (optimizeRoute primedState
        (fun _ => FetchOutcome.success summarylessResponse)).state.routeDurationSeconds =
       ({ distance := none, duration := none,
          geometry := some [(10, 10), (20, 20)] } : OptimizedTrip).duration ∧
     (({ distance := none, duration := none,
         geometry := some [(10, 10), (20, 20)] } : OptimizedTrip).duration = none →
       durationText (optimizeRoute primedState
          (fun _ => FetchOutcome.success summarylessResponse)).state.routeDurationSeconds =
         "--") ∧
     (optimizeRoute primedState
        (fun _ => FetchOutcome.success summarylessResponse)).state.optimizeError =
       none) :=
  ⟨⟨by decide, by decide, rfl⟩,
   optimize_partial_summary_allowed primedState
     (fun _ => FetchOutcome.success summarylessResponse)
     summarylessResponse
     { distance := none, duration := none,
       geometry := some [(10, 10), (20, 20)] }
     [(10, 10), (20, 20)]
     (by decide) (by decide) (by decide) (by decide) rfl
     (fun c hc => Or.inr (Option.some.inj hc).symm)
     rfl rfl (by decide) rfl⟩

/-- C2: when `includeCurrentLocation` is on and a user coordinate is
available, the request's coordinate list is the user coordinate prepended to
the stop coordinates in list order and `waypointOffset` is 1 (otherwise the
bare stop coordinates with offset 0); `optimizeRoute` dispatches exactly that
list and reconciles the stop order with that offset, and the trip position of
the stop at original index `i` is the value read at `waypoints[i + offset]`
(the reconciliation result is determined by the keys `wpKey wps off i`). -/
theorem optimize_request_construction (s : OptimizeState)
    (fetch : List (ℚ × ℚ) → FetchOutcome) (u : ℚ × ℚ)
    (hinc : s.includeCurrentLocationInRoute = true)
    (hu : s.userCoordinate = some u) :
    coordinatesForOptimization s = u :: s.stops.map Stop.coordinate ∧
    waypointOffsetOf s = 1 ∧
    (∀ s' : OptimizeState, s'.includeCurrentLocationInRoute = false →
      coordinatesForOptimization s' = s'.stops.map Stop.coordinate ∧
      waypointOffsetOf s' = 0) ∧
    (2 ≤ s.stops.length → s.stops.length ≤ 11 → s.accessToken ≠ "" →
      ∀ (data : OptimizedTripResponse) (bestTrip : OptimizedTrip)
        (geom : List (ℚ × ℚ)),
        fetch (coordinatesForOptimization s) = .success data →
        (∀ c, data.code = some c → c = "" ∨ c = "Ok") →
        data.trips.bind List.head? = some bestTrip →
        bestTrip.geometry = some geom → 2 ≤ geom.length →
        (optimizeRoute s fetch).request =
          some (u :: s.stops.map Stop.coordinate) ∧
        (optimizeRoute s fetch).state.stops =
          (reorderStopsByWaypointIndex s.stops data.waypoints 1).getD
            s.stops) ∧
    (∀ (wps : List OptimizedWaypoint) (off : Nat),
      s.stops.length + off ≤ wps.length →
      (∀ i, i < s.stops.length → (wpKey wps off i).isSome) →
      reorderStopsByWaypointIndex s.stops (some wps) off =
        some ((lexSortedIndices (wpKeyD wps off) s.stops.length).map
          (fun i => s.stops.getD i default))) := by
  have hcoords : coordinatesForOptimization s =
      u :: s.stops.map Stop.coordinate := by
    simp [coordinatesForOptimization, hu, hinc]
  have hoff : waypointOffsetOf s = 1 := by
    simp [waypointOffsetOf, shouldIncludeUserCoordinate, hinc, hu]
  refine ⟨hcoords, hoff, ?_, ?_, ?_⟩
  · intro s' h
    cases hcase : s'.userCoordinate <;>
      simp [coordinatesForOptimization, waypointOffsetOf,
        shouldIncludeUserCoordinate, h, hcase]
  · intro h2 h11 htok data bestTrip geom hfetch hcode htrip hgeom hglen
    have hle : s.stops.length ≤
        (if s.includeCurrentLocationInRoute then 11 else 12) := by
      rw [hinc]
      simpa using h11
    have huser : s.includeCurrentLocationInRoute = true →
        s.userCoordinate.isSome := fun _ => by simp [hu]
    rw [optimizeRoute_success_eq s fetch data bestTrip geom h2 huser hle htok
      hfetch hcode htrip hgeom hglen]
    exact ⟨by rw [hcoords], by rw [hoff]⟩
  · intro wps off hlen hfin
    exact reorder_eq_lexSort s.stops wps off hlen hfin

/-- A state with the current-location toggle on and a user coordinate
available. -/
def locationState : OptimizeState :=
  { stops := [stopA, stopB],
    includeCurrentLocationInRoute := true,
    userCoordinate := some (5, 5),
    accessToken := "token",
    routeCoordinates := [],
    routeDistanceMeters := none,
    routeDurationSeconds := none,
    optimizeError := none }

theorem optimize_request_construction_witness :
    (locationState.includeCurrentLocationInRoute = true ∧
     locationState.userCoordinate = some (5, 5)) ∧
    (coordinatesForOptimization locationState =
      (5, 5) :: locationState.stops.map Stop.coordinate ∧
     waypointOffsetOf locationState = 1) :=
  ⟨⟨rfl, rfl⟩,
   ⟨(optimize_request_construction locationState
       (fun _ => FetchOutcome.failure "unused") (5, 5) rfl rfl).1,
    (optimize_request_construction locationState
       (fun _ => FetchOutcome.failure "unused") (5, 5) rfl rfl).2.1⟩⟩

/-- C7: `durationText` renders exactly the spec's rule — `"--"` for an
absent duration, otherwise total minutes `round(seconds / 60)` floored at 1,
rendered `"<N> min"` below one hour and `"<H> hr"` / `"<H> hr <M> min"`
from one hour on — including the spec's concrete cases
59s, 3600s, 3660s and `null`. -/
theorem durationText_formats :
    durationText none = "--" ∧
    durationText (some 59) = "1 min" ∧
    durationText (some 3600) = "1 hr" ∧
    durationText (some 3660) = "1 hr 1 min" ∧
    (∀ q : ℚ, q ≤ 30 → durationText (some q) = "1 min") ∧
    (∀ m : ℤ, 1 ≤ m → m < 60 →
      durationText (some (60 * (m : ℚ))) = toString m ++ " min") ∧
    (∀ h : ℤ, 1 ≤ h →
      durationText (some (3600 * (h : ℚ))) = toString h ++ " hr") ∧
    (∀ h m : ℤ, 1 ≤ h → 1 ≤ m → m < 60 →
      durationText (some (3600 * (h : ℚ) + 60 * (m : ℚ))) =
        toString h ++ " hr " ++ toString m ++ " min") := by
  refine ⟨rfl, ?_, ?_, ?_, ?_, ?_, ?_, ?_⟩
  · simp only [durationText, round_eq]
    norm_num
    rfl
  · simp only [durationText, round_eq]
    norm_num
    rfl
  · simp only [durationText, round_eq]
    norm_num
    rfl
  · intro q hq
    have h1 : round (q / 60) ≤ 1 := by
      have h2 : (round (q / 60) : ℚ) ≤ q / 60 + 1 / 2 := round_le_add_half _
      have h3 : (round (q / 60) : ℚ) ≤ 1 := by linarith
      exact_mod_cast h3
    have hmax : max 1 (round (q / 60)) = 1 := max_eq_left h1
    simp only [durationText, hmax]
    norm_num
    rfl
  · intro m h1 h60
    have he : (60 * (m : ℚ)) / 60 = (m : ℚ) :=
      mul_div_cancel_left₀ (m : ℚ) (by norm_num)
    have hr : round ((60 * (m : ℚ)) / 60) = m := by rw [he, round_intCast]
    have hmax : max 1 (round ((60 * (m : ℚ)) / 60)) = m := by
      rw [hr]; exact max_eq_right h1
    simp only [durationText, hmax]
    rw [if_pos h60]
  · intro h h1
    have he : (3600 * (h : ℚ)) / 60 = ((60 * h : ℤ) : ℚ) := by
      push_cast; ring
    have hr : round ((3600 * (h : ℚ)) / 60) = 60 * h := by
      rw [he, round_intCast]
    have hmax : max 1 (round ((3600 * (h : ℚ)) / 60)) = 60 * h := by
      rw [hr]; exact max_eq_right (by omega)
    have hlt : ¬ (60 * h < 60) := by omega
    have hdiv : 60 * h / 60 = h := by omega
    have hmod : 60 * h % 60 = 0 := by omega
    simp only [durationText, hmax]
    rw [if_neg hlt, hmod, hdiv, if_pos rfl]
  · intro h m h1 hm1 hm60
    have he : (3600 * (h : ℚ) + 60 * (m : ℚ)) / 60 =
        ((60 * h + m : ℤ) : ℚ) := by push_cast; ring
    have hr : round ((3600 * (h : ℚ) + 60 * (m : ℚ)) / 60) = 60 * h + m := by
      rw [he, round_intCast]
    have hmax : max 1 (round ((3600 * (h : ℚ) + 60 * (m : ℚ)) / 60)) =
        60 * h + m := by
      rw [hr]; exact max_eq_right (by omega)
    have hlt : ¬ (60 * h + m < 60) := by omega
    have hdiv : (60 * h + m) / 60 = h := by omega
    have hmod : (60 * h + m) % 60 = m := by omega
    have hm0 : m ≠ 0 := by omega
    simp only [durationText, hmax]
    rw [if_neg hlt, hmod, hdiv, if_neg hm0]

theorem durationText_formats_witness :
    ((1 : ℤ) ≤ 1 ∧ (1 : ℤ) < 60) ∧
    durationText (some (3600 * ((1 : ℤ) : ℚ) + 60 * ((1 : ℤ) : ℚ))) =
      toString (1 : ℤ) ++ " hr " ++ toString (1 : ℤ) ++ " min" :=
  ⟨⟨le_refl 1, by decide⟩,
   durationText_formats.2.2.2.2.2.2.2 1 1 (le_refl 1) (le_refl 1)
     (by decide)⟩

/-- Any integer exactly as close to `x` as `round x` lies at or below
`round x`: together with `round_le` this says `round` picks the nearest
integer and resolves ties to the larger candidate — the ECMA-262 `toFixed`
rule on a non-negative magnitude, i.e. round-half-away-from-zero. -/
theorem round_tie_le (x : ℚ) (k : ℤ)
    (h : |x - (k : ℚ)| = |x - (round x : ℚ)|) : k ≤ round x := by
  rcases eq_or_ne k (round x) with rfl | hne
  · exact le_refl _
  · have habs : |x - (round x : ℚ)| ≤ 1 / 2 := abs_sub_round x
    have hone : (1 : ℚ) ≤ |(k : ℚ) - (round x : ℚ)| := by
      have h1 : (1 : ℤ) ≤ |k - round x| := Int.one_le_abs (sub_ne_zero.mpr hne)
      have h2 : ((1 : ℤ) : ℚ) ≤ ((|k - round x| : ℤ) : ℚ) := by
        exact_mod_cast h1
      rw [Int.cast_abs, Int.cast_sub] at h2
      simpa using h2
    have htri : |(k : ℚ) - (round x : ℚ)| ≤
        |x - (k : ℚ)| + |x - (round x : ℚ)| := by
      calc |(k : ℚ) - (round x : ℚ)|
          = |(x - (round x : ℚ)) - (x - (k : ℚ))| := by ring_nf
        _ ≤ |x - (round x : ℚ)| + |x - (k : ℚ)| := abs_sub _ _
        _ = |x - (k : ℚ)| + |x - (round x : ℚ)| := by ring
    have h12 : |x - (round x : ℚ)| = 1 / 2 := by
      apply le_antisymm habs
      rw [h] at htri
      linarith
    have hx2 : x - (round x : ℚ) = 1 / 2 ∨ x - (round x : ℚ) = -(1 / 2) :=
      abs_eq (by norm_num) |>.mp h12
    rcases hx2 with hx | hx
    · exfalso
      have hcast : x + 1 / 2 = ((round x + 1 : ℤ) : ℚ) := by push_cast; linarith
      have : round x = round x + 1 := by
        conv_lhs => rw [round_eq, hcast, Int.floor_intCast]
      omega
    · have hxk : |x - (k : ℚ)| = 1 / 2 := by rw [h, h12]
      rcases abs_eq (by norm_num : (0 : ℚ) ≤ 1 / 2) |>.mp hxk with h1 | h1
      · have hc : (k : ℚ) = (round x : ℚ) - 1 := by linarith
        have : k = round x - 1 := by exact_mod_cast hc
        omega
      · have hc : (k : ℚ) = (round x : ℚ) := by linarith
        have : k = round x := by exact_mod_cast hc
        omega

/-- C8: `distanceText` renders `"--"` for an absent distance and otherwise
`distanceMeters / 1000` with exactly one decimal digit, rounding to the
nearest tenth with ties away from zero, for every non-negative distance: the
printed integer `n` of tenths is the nearest integer to `m / 100` and beats
every tying candidate; `12345` renders as `"12.3"`. -/
theorem distanceText_formats :
    distanceText none = "--" ∧
    distanceText (some 12345) = "12.3" ∧
    (∀ m : ℚ, 0 ≤ m → ∃ n : ℤ, 0 ≤ n ∧ n = round (m / 100) ∧
      distanceText (some m) = toString (n / 10) ++ "." ++ toString (n % 10) ∧
      (∀ k : ℤ, |m / 100 - (n : ℚ)| ≤ |m / 100 - (k : ℚ)|) ∧
      (∀ k : ℤ, |m / 100 - (k : ℚ)| = |m / 100 - (n : ℚ)| → k ≤ n)) := by
  refine ⟨rfl, ?_, ?_⟩
  · simp only [distanceText, toFixed1, round_eq]
    norm_num
    rfl
  · intro m hm
    refine ⟨round (m / 100), ?_, rfl, ?_, ?_, ?_⟩
    · rw [round_eq]
      exact Int.floor_nonneg.mpr (by positivity)
    · have h0 : ¬ (m / 1000 < 0) := not_lt.mpr (by positivity)
      simp only [distanceText, toFixed1, if_neg h0,
        show m / 1000 * 10 = m / 100 from by ring]
      rfl
    · exact fun k => round_le (m / 100) k
    · exact fun k hk => round_tie_le (m / 100) k hk

theorem distanceText_formats_witness :
    (0 : ℚ) ≤ 12345 ∧
    ∃ n : ℤ, 0 ≤ n ∧ n = round ((12345 : ℚ) / 100) ∧
      distanceText (some 12345) =
        toString (n / 10) ++ "." ++ toString (n % 10) ∧
      (∀ k : ℤ, |(12345 : ℚ) / 100 - (n : ℚ)| ≤
        |(12345 : ℚ) / 100 - (k : ℚ)|) ∧
      (∀ k : ℤ, |(12345 : ℚ) / 100 - (k : ℚ)| =
        |(12345 : ℚ) / 100 - (n : ℚ)| → k ≤ n) :=
  ⟨by norm_num, distanceText_formats.2.2 12345 (by norm_num)⟩

/-- C9 as stated is false on the code: the guard compares
`searchQuery.trim().length < 3`, and trimming only strips leading/trailing
whitespace, so interior whitespace still counts.  The query `"a b"` has only
2 non-whitespace characters, yet its trimmed length is 3 and the effect
schedules a geocoding request instead of returning empty results without a
network call. -/
theorem search_short_query_counterexample :
    nonWhitespaceCount "a b" = 2 ∧
    (searchStep [] "a b" "token").request = some "a b" ∧
    (searchStep [] "a b" "token").request ≠ none := by decide

/-- C9 (amended): for every query whose whitespace-trimmed form has fewer
than 3 characters, the search effect produces an empty result set, clears
the error, and issues no network call — in particular any query of length 2,
whose trimmed form has at most 2 characters. -/
theorem search_trimmed_short_no_call (previousResults : List GeocodingFeature)
    (searchQuery accessToken : String)
    (h : (jsTrim searchQuery).length < 3) :
    searchStep previousResults searchQuery accessToken =
      ⟨[], false, none, none⟩ := by
  simp [searchStep, h]

theorem search_trimmed_short_no_call_witness :
    (jsTrim "ab").length < 3 ∧
    searchStep [] "ab" "token" = ⟨[], false, none, none⟩ :=
  ⟨by decide, search_trimmed_short_no_call [] "ab" "token" (by decide)⟩

end RouteOptimizer
